import Mathlib

/-!
Shallow embedding of the auth service's session endpoints
(`src/controllers/api/account-controller.js`) over its mongoose models
(`src/models/refresh-token.js`, `src/models/user.js`), together with
theorems settling the specification's claims about the refresh-token
lifecycle (login, refresh/rotation, reuse detection, logout).

Tokens are JWT strings; we abstract a token string by what the two jwt
primitives report on it: `payload` is the result of `jwt.decode` (`none`
when the string cannot be decoded at all) and `verdict` is the outcome of
`jwt.verify` against the refresh-token secret at the time of the request
(success, `TokenExpiredError`, or another `JsonWebTokenError` such as a
signature mismatch).  A `nonce` component models the fact that distinct
`jwt.sign` calls yield distinct strings (distinct `iat`/randomness).

The Mongo collection behind the `RefreshToken` model is a list of
documents; `findOne` returns the first match, mirroring Mongo's
first-match semantics.
-/

namespace AuthService

/-- Claim set carried by both tokens, as built in `login`/`refreshToken`:
`sub` (principal id), `company` (display field) and the `admin` role flag. -/
structure TokenPayload where
  sub : Nat
  company : String
  admin : Bool
deriving DecidableEq, Repr

/-- Outcome of `jwt.verify(token, REFRESH_TOKEN_SECRET)` at request time:
success, a `TokenExpiredError`, or a non-expiry `JsonWebTokenError`
(signature mismatch / tampering). -/
inductive VerifyOutcome where
  | ok
  | expired
  | badSignature
deriving DecidableEq, Repr

/-- A token string, abstracted by what the jwt primitives report on it.
`payload` is the `jwt.decode` result (`none` = undecodable), `verdict` the
`jwt.verify` outcome, `nonce` distinguishes distinct signings. -/
structure Token where
  payload : Option TokenPayload
  verdict : VerifyOutcome
  nonce : Nat
deriving DecidableEq, Repr

/-- One document of the mongoose `RefreshToken` model: `token` holds the
principal's current refresh token, `usedTokens` the superseded ones
(default `[]`), `user` the owner; `rid` models the Mongo `_id`. -/
structure RefreshTokenDoc where
  rid : Nat
  user : Nat
  token : Token
  usedTokens : List Token
deriving DecidableEq, Repr

/-- The `RefreshToken` collection. -/
abbrev Store := List RefreshTokenDoc

/-- One document of the `User` model (only the fields the controller
reads); `id` models the virtual hex id, `password` the bcrypt hash. -/
structure User where
  id : Nat
  company : String
  email : String
  password : String
  admin : Bool
deriving DecidableEq, Repr

/-- `RefreshToken.findOne({ token: t })`. -/
def findByToken (s : Store) (t : Token) : Option RefreshTokenDoc :=
  s.find? (fun r => r.token == t)

/-- `RefreshToken.findOne({ user: u })`. -/
def findByUser (s : Store) (u : Nat) : Option RefreshTokenDoc :=
  s.find? (fun r => r.user == u)

/-- `document.delete()`: remove the document carrying `_id = i`. -/
def deleteById (s : Store) (i : Nat) : Store :=
  s.filter (fun r => r.rid != i)

/-- `RefreshToken.findByIdAndUpdate({ _id: i }, { $push: { usedTokens: t } })`:
append `t` to that document's `usedTokens`; a no-op when no document has
`_id = i` (e.g. it was deleted moments before). -/
def pushUsed (s : Store) (i : Nat) (t : Token) : Store :=
  s.map (fun r => if r.rid == i then { r with usedTokens := r.usedTokens ++ [t] } else r)

/-- `RefreshToken.findOneAndDelete({ token: t })`: delete the first
matching document; a no-op when nothing matches. -/
def deleteFirstByToken : Store → Token → Store
  | [], _ => []
  | r :: rs, t => if r.token == t then rs else r :: deleteFirstByToken rs t

/-- `jwt.sign(payload, secret, ...)`: a fresh signing of `p` with nonce
`n`.  A freshly signed token decodes to its payload and verifies. -/
def mintToken (p : TokenPayload) (n : Nat) : Token :=
  ⟨some p, VerifyOutcome.ok, n⟩

/-- Fresh `_id` for `new RefreshToken(...).save()`. -/
def freshId (s : Store) : Nat :=
  (s.map (fun r => r.rid)).foldr max 0 + 1

/-- HTTP outcome of one controller call: `ok` is a 200 with the minted
access/refresh pair, `badRequest` a 400, `unauthorized` a 401 (with the
message set on the error, if any), `noContent` a 204, and
`serverError name` an error with that `err.name` handed raw to
`next(err)` — the generic error handler, not a 401. -/
inductive Response where
  | ok (accessTok refreshTok : Token)
  | badRequest
  | unauthorized (msg : String)
  | noContent
  | serverError (name : String)
deriving DecidableEq, Repr

/-- Whether a response is a 401. -/
def Response.isUnauthorized : Response → Bool
  | .unauthorized _ => true
  | _ => false

/-- Whether a response is a success (200 with a pair, or 204). -/
def Response.isSuccess : Response → Bool
  | .ok _ _ => true
  | .noContent => true
  | _ => false

/-- JS `String.prototype.toLowerCase()` (used as
`req.body.email.toLowerCase()` in `login`), character by character. -/
def lowerString (e : String) : String :=
  String.mk (e.data.map Char.toLower)

/-- `User.authenticate(email, password)`: `findOne({ email })`, then
`bcrypt.compare(password, user?.password)`.  A missing user makes the
optional access yield `undefined` and `bcrypt.compare` throw; a hash
mismatch throws `Invalid credentials` — both surface as failure (`none`).
`bcompare` abstracts `bcrypt.compare` on an existing hash. -/
def authenticate (bcompare : String → String → Bool) (dir : List User)
    (email pw : String) : Option User :=
  match dir.find? (fun u => u.email == email) with
  | none => none
  | some u => if bcompare pw u.password then some u else none

/-- `AccountController.login`.  `na`/`nr` are the nonces of the two
`jwt.sign` calls (access, refresh).  On authentication failure the catch
block answers 401 with no store access.  On success: if the user has no
`RefreshToken` document, one is created holding the fresh refresh token;
otherwise the controller runs
`findOneAndUpdate({ user: user.id, token: refreshToken })` — a bare
filter with no update document, hence a no-op on the store — and then
pushes the document's previous `token` onto its `usedTokens`. -/
def login (bcompare : String → String → Bool) (dir : List User)
    (email pw : String) (na nr : Nat) (s : Store) : Response × Store :=
  match authenticate bcompare dir (lowerString email) pw with
  | none => (Response.unauthorized "", s)
  | some u =>
    let payload : TokenPayload := ⟨u.id, u.company, u.admin⟩
    let accessToken := mintToken payload na
    let refreshTok := mintToken payload nr
    match findByUser s u.id with
    | none =>
      (Response.ok accessToken refreshTok,
        s ++ [⟨freshId s, u.id, refreshTok, []⟩])
    | some r =>
      (Response.ok accessToken refreshTok, pushUsed s r.rid r.token)

/-- The reuse scan of `AccountController.refreshToken`: look the owner's
document up by the token's decoded `sub` and delete that document when
the presented token appears in its `usedTokens`. -/
def reuseScan (s : Store) (t : Token) (sub : Nat) : Store :=
  match findByUser s sub with
  | some r => if t ∈ r.usedTokens then deleteById s r.rid else s
  | none => s

/-- `AccountController.refreshToken`.  A missing body token → 400 before
any store access.  Otherwise: `findOne({ token: requestToken })`; then
`jwt.decode(requestToken).sub` — when the token cannot be decoded,
`jwt.decode` returns `null` and the member access throws a `TypeError`,
which the catch block hands raw to `next(err)` (only `TokenExpiredError`
is mapped to a 401); then the reuse scan; then 401 `Invalid token` when no
document holds the token as its `token` field; then `jwt.verify`
(`TokenExpiredError` → 401 `Invalid refresh token`, any other verify
error → raw `next(err)`); on success a new pair is minted from the
decoded claims, `findOneAndUpdate({ token: newRefreshToken })` runs — a
bare filter with no update document, hence a no-op on the store — and the
request token is pushed onto the found document's `usedTokens`. -/
def refreshToken (na nr : Nat) (body : Option Token) (s : Store) :
    Response × Store :=
  match body with
  | none => (Response.badRequest, s)
  | some requestToken =>
    let stored := findByToken s requestToken
    match requestToken.payload with
    | none => (Response.serverError "TypeError", s)
    | some p =>
      let s1 := reuseScan s requestToken p.sub
      match stored with
      | none => (Response.unauthorized "Invalid token", s1)
      | some d =>
        match requestToken.verdict with
        | VerifyOutcome.expired =>
          (Response.unauthorized "Invalid refresh token", s1)
        | VerifyOutcome.badSignature =>
          (Response.serverError "JsonWebTokenError", s1)
        | VerifyOutcome.ok =>
          (Response.ok (mintToken p na) (mintToken p nr),
            pushUsed s1 d.rid requestToken)

/-- `AccountController.logout`: 400 on a missing token; otherwise
`findOneAndDelete({ token })` then 204 — also 204 when nothing matched. -/
def logout (body : Option Token) (s : Store) : Response × Store :=
  match body with
  | none => (Response.badRequest, s)
  | some t => (Response.noContent, deleteFirstByToken s t)

/-! Concrete scenario used by several claims: one user, one login, then a
successful refresh of the login token. -/

/-- Payload of the scenario user's tokens. -/
def pay0 : TokenPayload := ⟨1, "acme", false⟩

/-- The scenario user. -/
def user0 : User := ⟨1, "acme", "ceo@acme.se", "h0", false⟩

/-- Concrete stand-in for `bcrypt.compare` in the scenario. -/
def bcrypt0 : String → String → Bool :=
  fun pw h => pw == "pw0" && h == "h0"

/-- The refresh token minted at the scenario login. -/
def tok0 : Token := mintToken pay0 0

/-- Store after the scenario login (from the empty store). -/
def store1 : Store := (login bcrypt0 [user0] "ceo@acme.se" "pw0" 10 0 []).2

/-- Store after one successful refresh of `tok0`. -/
def store2 : Store := (refreshToken 11 1 (some tok0) store1).2

/-- A token string `jwt.decode` cannot decode (`jwt.decode` → `null`). -/
def malformedTok : Token := ⟨none, VerifyOutcome.ok, 99⟩

/-- A token stored as a record's current token whose verification fails
with a signature error (`JsonWebTokenError`) rather than expiry. -/
def tamperedTok : Token := ⟨some pay0, VerifyOutcome.badSignature, 7⟩

/-- A store holding `tamperedTok` as `currentToken`, never superseded. -/
def tamperedStore : Store := [⟨1, 1, tamperedTok, []⟩]

/-- A token stored as a record's current token whose verification fails
with `TokenExpiredError`. -/
def expiredTok : Token := ⟨some pay0, VerifyOutcome.expired, 8⟩

/-- A store holding `expiredTok` as `currentToken`, never superseded. -/
def expiredStore : Store := [⟨1, 1, expiredTok, []⟩]

/-- C1: presenting a token from `usedTokens` must delete the principal's
record and be rejected with 401 even when it still verifies.  On the
code, after login (`tok0`) and one successful rotation the record still
holds `tok0` as its `token` field (rotation's write-back carries no
update document), so a second presentation of `tok0` passes the
`findOne({ token })` check: the reuse scan does delete the record, but
the request then proceeds and is answered 200 with a freshly minted
pair instead of a 401. -/
theorem reused_token_deletes_record_but_returns_200 :
    store2 = [⟨1, 1, tok0, [tok0]⟩] ∧
    (refreshToken 12 2 (some tok0) store2).2 = [] ∧
    (refreshToken 12 2 (some tok0) store2).1 =
      Response.ok (mintToken pay0 12) (mintToken pay0 2) ∧
    Response.isUnauthorized (refreshToken 12 2 (some tok0) store2).1 = false := by
  decide

/-- C2: a valid-and-current refresh mints a pair from the presented
token's claims and pushes the old token into `usedTokens` (these parts
hold), but `findOneAndUpdate({ token: newRefreshToken })` passes only a
filter — no update document — so the newly minted refresh token never
becomes the record's `currentToken`: after the scenario's first refresh
the record still holds `tok0`, and the returned `mintToken pay0 1` is not
the `token` field of any record. -/
theorem rotation_does_not_set_new_currentToken :
    (refreshToken 11 1 (some tok0) store1).1 =
      Response.ok (mintToken pay0 11) (mintToken pay0 1) ∧
    store2 = [⟨1, 1, tok0, [tok0]⟩] ∧
    mintToken pay0 1 ≠ tok0 ∧
    findByToken store2 (mintToken pay0 1) = none := by
  decide

/-- C3: the invariant "no record's `currentToken` is an element of its own
`usedTokens`" fails in a reachable state: after login and one successful
refresh the record reads `{ token: tok0, usedTokens: [tok0] }`, because
the rotation appended the old token to `usedTokens` without replacing the
`token` field. -/
theorem invariant_fails_currentToken_in_usedTokens :
    ∃ r ∈ store2, r.token ∈ r.usedTokens := by
  decide

/-- C4: on a second login for an already-logged-in principal the response
carries the fresh refresh token `mintToken pay0 5`, but the store still
holds `tok0` as the record's `token` (the overwrite
`findOneAndUpdate({ user, token })` is a bare filter, a no-op) and the
old current token is pushed into `usedTokens`, which changes from `[]` to
`[tok0]` — the returned token does not become the sole `currentToken` and
`usedTokens` is not unchanged. -/
theorem relogin_does_not_replace_currentToken :
    (login bcrypt0 [user0] "ceo@acme.se" "pw0" 20 5 store1).1 =
      Response.ok (mintToken pay0 20) (mintToken pay0 5) ∧
    (login bcrypt0 [user0] "ceo@acme.se" "pw0" 20 5 store1).2 =
      [⟨1, 1, tok0, [tok0]⟩] ∧
    mintToken pay0 5 ≠ tok0 := by
  decide

/-- C5 counterexample: a refresh request carrying a non-empty but
undecodable token is rejected, yet not with a 401: `jwt.decode` returns
`null`, the `.sub` access raises a `TypeError`, and the catch block hands
it raw to `next(err)` (only `TokenExpiredError` is mapped to 401). -/
theorem refresh_malformed_not_401 :
    (refreshToken 1 2 (some malformedTok) store1).1 =
      Response.serverError "TypeError" ∧
    Response.isUnauthorized (refreshToken 1 2 (some malformedTok) store1).1 = false ∧
    Response.isSuccess (refreshToken 1 2 (some malformedTok) store1).1 = false := by
  decide

/-- C5 amended: for refresh requests whose token is non-empty and
decodable and whose verification does not fail with a signature
(non-expiry) error, every rejection is a 401 — unknown tokens and expired
tokens collapse to Unauthorized. -/
theorem refresh_decodable_rejections_are_401
    (na nr : Nat) (t : Token) (s : Store) (p : TokenPayload)
    (hd : t.payload = some p) (hv : t.verdict ≠ VerifyOutcome.badSignature) :
    Response.isUnauthorized (refreshToken na nr (some t) s).1 = true ∨
    Response.isSuccess (refreshToken na nr (some t) s).1 = true := by
  cases hst : findByToken s t with
  | none =>
    left
    simp [refreshToken, hd, hst, Response.isUnauthorized]
  | some d =>
    cases hverd : t.verdict with
    | ok =>
      right
      simp [refreshToken, hd, hst, hverd, Response.isSuccess]
    | expired =>
      left
      simp [refreshToken, hd, hst, hverd, Response.isUnauthorized]
    | badSignature => exact absurd hverd hv

/-- Witness for the amended C5 at a concrete input (an unknown token on
the empty store). -/
theorem refresh_decodable_rejections_are_401_witness :
    Response.isUnauthorized (refreshToken 1 2 (some tok0) []).1 = true ∨
    Response.isSuccess (refreshToken 1 2 (some tok0) []).1 = true :=
  refresh_decodable_rejections_are_401 1 2 tok0 [] pay0 rfl (by decide)

/-- C6 counterexample: a token stored as a record's `currentToken`, never
in any `usedTokens`, whose cryptographic verification fails with a
signature error (tampered), is rejected — but via a raw
`JsonWebTokenError` handed to `next(err)`, not a 401; the store is left
untouched. -/
theorem refresh_tampered_current_not_401 :
    (refreshToken 1 2 (some tamperedTok) tamperedStore).1 =
      Response.serverError "JsonWebTokenError" ∧
    Response.isUnauthorized
      (refreshToken 1 2 (some tamperedTok) tamperedStore).1 = false ∧
    (refreshToken 1 2 (some tamperedTok) tamperedStore).2 = tamperedStore := by
  decide

/-- C6 amended: a token stored as some record's `currentToken`, never
placed in any record's `usedTokens`, whose verification fails because its
TTL elapsed (`TokenExpiredError`), is rejected with 401 and the store is
left completely untouched — no record is deleted or modified. -/
theorem refresh_expired_current_401_untouched
    (na nr : Nat) (t : Token) (s : Store) (p : TokenPayload)
    (d : RefreshTokenDoc)
    (hd : t.payload = some p) (hcur : findByToken s t = some d)
    (hunused : ∀ r ∈ s, t ∉ r.usedTokens)
    (hexp : t.verdict = VerifyOutcome.expired) :
    (refreshToken na nr (some t) s).1 =
      Response.unauthorized "Invalid refresh token" ∧
    (refreshToken na nr (some t) s).2 = s := by
  have hscan : reuseScan s t p.sub = s := by
    unfold reuseScan
    cases hfu : findByUser s p.sub with
    | none => rfl
    | some r =>
      have hmem : r ∈ s := List.mem_of_find?_eq_some hfu
      simp [hunused r hmem]
  constructor <;> simp [refreshToken, hd, hcur, hexp, hscan]

/-- Witness for the amended C6 at a concrete input: an expired current
token is answered 401 and the store is untouched. -/
theorem refresh_expired_current_401_untouched_witness :
    (refreshToken 1 2 (some expiredTok) expiredStore).1 =
      Response.unauthorized "Invalid refresh token" ∧
    (refreshToken 1 2 (some expiredTok) expiredStore).2 = expiredStore :=
  refresh_expired_current_401_untouched 1 2 expiredTok expiredStore pay0
    ⟨1, 1, expiredTok, []⟩ rfl (by decide) (by decide) rfl

/-- C7: a refresh request with a missing (or empty, hence falsy)
`refreshToken` body field is answered 400 with the store unchanged, and
the response is the same whatever the store holds — the early return
happens before any store lookup. -/
theorem refresh_missing_token_400_no_store_access
    (na nr : Nat) (s s' : Store) :
    refreshToken na nr none s = (Response.badRequest, s) ∧
    (refreshToken na nr none s).1 = (refreshToken na nr none s').1 :=
  ⟨rfl, rfl⟩

/-- Helper: after `deleteFirstByToken`, no document holds `t`, provided at
most one did before. -/
theorem findByToken_deleteFirstByToken (s : Store) (t : Token)
    (h : (s.filter (fun r => r.token == t)).length ≤ 1) :
    findByToken (deleteFirstByToken s t) t = none := by
  induction s with
  | nil => rfl
  | cons r rs ih =>
    by_cases hr : r.token = t
    · have hfil : (r :: rs).filter (fun x => x.token == t) =
          r :: rs.filter (fun x => x.token == t) := by
        simp [List.filter_cons, hr]
      rw [hfil, List.length_cons] at h
      have hone : (rs.filter (fun x => x.token == t)).length = 0 := by omega
      have hnil : rs.filter (fun x => x.token == t) = [] :=
        List.length_eq_zero.mp hone
      have hall : ∀ x ∈ rs, ¬((fun x => x.token == t) x = true) := by
        intro x hx
        simpa using (List.filter_eq_nil_iff.mp hnil) x hx
      have hdel : deleteFirstByToken (r :: rs) t = rs := by
        simp [deleteFirstByToken, hr]
      rw [hdel]
      exact List.find?_eq_none.mpr hall
    · have hdel : deleteFirstByToken (r :: rs) t =
          r :: deleteFirstByToken rs t := by
        simp [deleteFirstByToken, hr]
      have h2 : (rs.filter (fun x => x.token == t)).length ≤ 1 := by
        have hfil : (r :: rs).filter (fun x => x.token == t) =
            rs.filter (fun x => x.token == t) := by
          simp [List.filter_cons, hr]
        rwa [hfil] at h
      rw [hdel]
      show List.find? _ _ = none
      rw [List.find?_cons_of_neg _ (by simp [hr])]
      exact ih h2

/-- Helper: `findOneAndDelete` is a no-op when nothing matches. -/
theorem deleteFirstByToken_eq_self (s : Store) (t : Token)
    (h : findByToken s t = none) : deleteFirstByToken s t = s := by
  induction s with
  | nil => rfl
  | cons r rs ih =>
    by_cases hr : r.token = t
    · rw [findByToken, List.find?_cons_of_pos _ (by simp [hr])] at h
      cases h
    · rw [findByToken, List.find?_cons_of_neg _ (by simp [hr])] at h
      simp [deleteFirstByToken, hr]
      exact ih h

/-- C8: logout with a present token deletes the record matching that token
and answers 204; a missing token answers 400 with the store untouched;
and a second logout with the same (now deleted) token is a well-defined
not-found outcome, not a crash: it finds nothing, deletes nothing, and
answers 204 over the unchanged store. -/
theorem logout_deletes_and_is_idempotent (t : Token) (s : Store)
    (huniq : (s.filter (fun r => r.token == t)).length ≤ 1) :
    logout none s = (Response.badRequest, s) ∧
    (logout (some t) s).1 = Response.noContent ∧
    findByToken (logout (some t) s).2 t = none ∧
    logout (some t) (logout (some t) s).2 =
      (Response.noContent, (logout (some t) s).2) := by
  refine ⟨rfl, rfl, ?_, ?_⟩
  · exact findByToken_deleteFirstByToken s t huniq
  · have h := findByToken_deleteFirstByToken s t huniq
    show (Response.noContent, deleteFirstByToken (deleteFirstByToken s t) t) = _
    rw [deleteFirstByToken_eq_self _ _ h]
    rfl

/-- Witness for C8 at a concrete input: logging `tok0` out of the
one-record store reached by the scenario login. -/
theorem logout_deletes_and_is_idempotent_witness :
    logout none store1 = (Response.badRequest, store1) ∧
    (logout (some tok0) store1).1 = Response.noContent ∧
    findByToken (logout (some tok0) store1).2 tok0 = none ∧
    logout (some tok0) (logout (some tok0) store1).2 =
      (Response.noContent, (logout (some tok0) store1).2) :=
  logout_deletes_and_is_idempotent tok0 store1 (by decide)

/-- Helper: membership in `deleteById` implies membership before. -/
theorem mem_of_mem_deleteById (s : Store) (i : Nat) (r : RefreshTokenDoc)
    (h : r ∈ deleteById s i) : r ∈ s :=
  (List.mem_filter.mp h).1

/-- Helper: the reuse scan only ever deletes documents, so membership
afterwards implies membership before. -/
theorem mem_of_mem_reuseScan (s : Store) (t : Token) (sub : Nat)
    (r : RefreshTokenDoc) (h : r ∈ reuseScan s t sub) : r ∈ s := by
  unfold reuseScan at h
  split at h
  · split at h
    · exact mem_of_mem_deleteById s _ r h
    · exact h
  · exact h

/-- Helper: every document of `pushUsed s i t` keeps the `token` field of
a document of `s`. -/
theorem mem_pushUsed_token (s : Store) (i : Nat) (t : Token)
    (r : RefreshTokenDoc) (h : r ∈ pushUsed s i t) :
    ∃ r0, r0 ∈ s ∧ r0.token = r.token := by
  rcases List.mem_map.mp h with ⟨r0, hr0, hfr⟩
  refine ⟨r0, hr0, ?_⟩
  by_cases hc : (r0.rid == i) = true
  · rw [if_pos hc] at hfr
    subst hfr
    rfl
  · rw [if_neg hc] at hfr
    subst hfr
    rfl

/-- Helper: `pushUsed` changes no `token` field. -/
theorem token_map_pushUsed (s : Store) (i : Nat) (t : Token) :
    (pushUsed s i t).map (fun r => r.token) = s.map (fun r => r.token) := by
  unfold pushUsed
  have hf : ((fun r : RefreshTokenDoc => r.token) ∘
      (fun r : RefreshTokenDoc =>
        if r.rid == i then { r with usedTokens := r.usedTokens ++ [t] } else r)) =
      fun r : RefreshTokenDoc => r.token := by
    funext r
    by_cases hc : (r.rid == i) = true
    · simp [Function.comp, hc]
    · simp [Function.comp, hc]
  rw [List.map_map, hf]

/-- C9: the `token` (currentToken) field is written only at record
creation.  For a valid-and-current refresh the response is a 200 with the
new pair, but the rotation write-back (a bare
`findOneAndUpdate({ token: newRefreshToken })` with an empty update
document, followed by a `$push` onto `usedTokens`) leaves every surviving
record's `token` field exactly as the reuse scan left it; the newly
returned refresh token is not any record's `token`, so presenting it to a
later refresh finds no matching record and is answered 401
`Invalid token`. -/
theorem refresh_never_persists_new_token
    (na nr na2 nr2 : Nat) (t : Token) (s : Store) (p : TokenPayload)
    (d : RefreshTokenDoc)
    (hd : t.payload = some p) (hcur : findByToken s t = some d)
    (hok : t.verdict = VerifyOutcome.ok)
    (hfresh : ∀ r ∈ s, r.token ≠ mintToken p nr) :
    (refreshToken na nr (some t) s).1 =
      Response.ok (mintToken p na) (mintToken p nr) ∧
    ((refreshToken na nr (some t) s).2).map (fun r => r.token) =
      (reuseScan s t p.sub).map (fun r => r.token) ∧
    findByToken (refreshToken na nr (some t) s).2 (mintToken p nr) = none ∧
    (refreshToken na nr (some t) s).1.isUnauthorized = false ∧
    (refreshToken na2 nr2 (some (mintToken p nr))
        (refreshToken na nr (some t) s).2).1 =
      Response.unauthorized "Invalid token" := by
  have heq : refreshToken na nr (some t) s =
      (Response.ok (mintToken p na) (mintToken p nr),
        pushUsed (reuseScan s t p.sub) d.rid t) := by
    simp [refreshToken, hd, hcur, hok]
  have hnone : findByToken
      (pushUsed (reuseScan s t p.sub) d.rid t) (mintToken p nr) = none := by
    apply List.find?_eq_none.mpr
    intro r hr
    rcases mem_pushUsed_token _ _ _ r hr with ⟨r0, hr0, htk⟩
    have hr0s : r0 ∈ s := mem_of_mem_reuseScan s t p.sub r0 hr0
    have hne : r.token ≠ mintToken p nr := htk ▸ hfresh r0 hr0s
    simpa using hne
  refine ⟨by rw [heq], ?_, ?_, by rw [heq]; rfl, ?_⟩
  · rw [heq]
    exact token_map_pushUsed _ _ _
  · rw [heq]
    exact hnone
  · rw [heq]
    simp only [mintToken] at hnone
    simp [refreshToken, mintToken, hnone]

/-- Witness for C9 at the concrete scenario input: the rotation of `tok0`
out of the one-record store leaves `tok0` as the only stored `token`, and
the freshly returned token finds no record afterwards. -/
theorem refresh_never_persists_new_token_witness :
    (refreshToken 11 1 (some tok0) store1).1 =
      Response.ok (mintToken pay0 11) (mintToken pay0 1) ∧
    ((refreshToken 11 1 (some tok0) store1).2).map (fun r => r.token) =
      (reuseScan store1 tok0 pay0.sub).map (fun r => r.token) ∧
    findByToken (refreshToken 11 1 (some tok0) store1).2
      (mintToken pay0 1) = none ∧
    (refreshToken 11 1 (some tok0) store1).1.isUnauthorized = false ∧
    (refreshToken 12 2 (some (mintToken pay0 1))
        (refreshToken 11 1 (some tok0) store1).2).1 =
      Response.unauthorized "Invalid token" :=
  refresh_never_persists_new_token 11 1 12 2 tok0 store1 pay0
    ⟨1, 1, tok0, []⟩ rfl (by decide) rfl (by decide)

/-- C10: a login naming an identifier with no stored user and a login
naming an existing user with a wrong secret produce identical observable
outcomes: `authenticate` fails in both (the stored hash is reached
through an optional access, so a missing user never short-circuits to a
distinct result), the endpoint answers the same 401 in both cases, and
the store is untouched — nothing reveals whether the account exists. -/
theorem login_indistinguishable_unknown_vs_wrong_password
    (bcompare : String → String → Bool) (dir : List User)
    (e1 pw1 e2 pw2 : String) (u : User) (na nr : Nat) (s : Store)
    (h1 : dir.find? (fun v => v.email == lowerString e1) = none)
    (h2 : dir.find? (fun v => v.email == lowerString e2) = some u)
    (h3 : bcompare pw2 u.password = false) :
    login bcompare dir e1 pw1 na nr s = (Response.unauthorized "", s) ∧
    login bcompare dir e2 pw2 na nr s = (Response.unauthorized "", s) ∧
    (login bcompare dir e1 pw1 na nr s).1 =
      (login bcompare dir e2 pw2 na nr s).1 := by
  refine ⟨?_, ?_, ?_⟩
  · simp [login, authenticate, h1]
  · simp [login, authenticate, h2, h3]
  · simp [login, authenticate, h1, h2, h3]

/-- Witness for C10 at concrete inputs: `ghost@acme.se` is not in the
directory, `ceo@acme.se` is but `bad` is not its password; both logins
answer the same 401 over the untouched empty store. -/
theorem login_indistinguishable_unknown_vs_wrong_password_witness :
    login bcrypt0 [user0] "ghost@acme.se" "pw0" 3 4 [] =
      (Response.unauthorized "", []) ∧
    login bcrypt0 [user0] "ceo@acme.se" "bad" 3 4 [] =
      (Response.unauthorized "", []) ∧
    (login bcrypt0 [user0] "ghost@acme.se" "pw0" 3 4 []).1 =
      (login bcrypt0 [user0] "ceo@acme.se" "bad" 3 4 []).1 :=
  login_indistinguishable_unknown_vs_wrong_password bcrypt0 [user0]
    "ghost@acme.se" "pw0" "ceo@acme.se" "bad" user0 3 4 []
    (by decide) (by decide) (by decide)

end AuthService
